import Mathlib

/-!
Verification of the hex-transfer reassembly engine of FlasherX_can
(`src/src/HexTransfer.cpp`, header in `src/unnamed/part_002`).

The C++ source is shallowly embedded: the namespace-global mutable
variables become the fields of `HexTransfer.HTState`, each C++ function
becomes a pure Lean function from the old state to the new state
(together with its return value), machine integers are `Nat` with an
explicit `% 2^32` (`u32`) wherever 32-bit overflow can occur, and the
flash writer is abstracted by a success predicate in `FlashCfg` while
the actual bytes written to staging are collected in an explicit write
log.

The one part of the source that cannot be embedded is the receiver-side
init-message checksum: `unpack_transfer_init_msg` computes
`CRC32.crc32(reinterpret_cast<const uint8_t*>(&m), 48)`, i.e. a CRC over
48 bytes of the in-memory representation of a struct whose size is about
12 bytes.  That value depends on padding bytes and on 36 bytes of stack
memory beyond the struct (undefined behaviour), so it is modelled by an
abstract parameter `ck : Nat -> Nat` applied to the packed 64-bit wire
word; theorems only ever assume that the received checksum field does or
does not coincide with it.
-/

namespace HexTransfer

/-- PAD byte 0xFF used to fill unused buffer positions. -/
def PAD : Nat := 0xFF

/-- MAX_HEX_LINE_SIZE from the header. -/
def MAX_HEX_LINE_SIZE : Nat := 45

/-- MAX_HEX_CHUNK_SIZE from the header. -/
def MAX_HEX_CHUNK_SIZE : Nat := 5

/-- HEX_LINE_TIMEOUT_LEN (ms) from the header. -/
def HEX_LINE_TIMEOUT_LEN : Nat := 5000

/-- INACTIVITY_TIMEOUT_LEN (ms) from the header. -/
def INACTIVITY_TIMEOUT_LEN : Nat := 15000

/-- Reduction modulo 2^32, the semantics of `uint32_t` arithmetic. -/
def u32 (n : Nat) : Nat := n % 4294967296

/-- One bit of the reflected CRC-32 feedback (polynomial 0xEDB88320). -/
def crc32_round (r : Nat) : Nat :=
  if r % 2 = 1 then (r >>> 1) ^^^ 0xEDB88320 else r >>> 1

/-- Eight feedback rounds folding one byte into the CRC register. -/
def crc32_byte (reg b : Nat) : Nat :=
  Nat.iterate crc32_round 8 (reg ^^^ (b % 256))

/-- Run the CRC register over a byte list (no init/xorout). -/
def crc32_raw (reg : Nat) (bs : List Nat) : Nat := bs.foldl crc32_byte reg

/-- IEEE-802.3 CRC-32 of a byte list: init 0xFFFFFFFF, reflected
polynomial 0xEDB88320, xorout 0xFFFFFFFF.  This is `FastCRC32.crc32`. -/
def crc32_bytes (bs : List Nat) : Nat := crc32_raw 0xFFFFFFFF bs ^^^ 0xFFFFFFFF

/-- Continue a CRC-32 from a previously finalized value; this is
`FastCRC32.crc32_upd`, so `crc32_upd (crc32_bytes a) b = crc32_bytes (a ++ b)`. -/
def crc32_upd (prev : Nat) (bs : List Nat) : Nat :=
  crc32_raw (prev ^^^ 0xFFFFFFFF) bs ^^^ 0xFFFFFFFF

/-- Response codes of the outbound acknowledgement (header enum
`ResponseCode`). -/
inductive ResponseCode where
  | NONE
  | SEND_LINE
  | TRANSFER_COMPLETE
  | ERROR
deriving DecidableEq

/-- The namespace-global mutable state of `HexTransfer.cpp`.  All
`uint32_t`/`size_t` variables are `Nat` values kept below 2^32 by the
operations; `hex_line_segment_count` is an `int` (initialized to -1),
`hex_line_segments_received` is the heap-allocated `bool` array (empty
list when the pointer is null), and `hex_line_buf` is the 45-byte char
buffer. -/
structure HTState where
  base_address : Nat
  start_address : Nat
  min_address : Nat
  max_address : Nat
  eof_received : Bool
  total_lines : Nat
  received_file_checksum : Nat
  hex_line_num : Nat
  hex_line_segment_count : Int
  hex_line_segments_received : List Bool
  hex_line_buf : List Nat
  new_transfer_init_msg_received : Bool
  transfer_init_msg_error : Bool
  transfer_in_progress : Bool
  file_transfer_complete : Bool
  computed_file_checksum : Nat
  last_successful_can_msg_ts : Nat
deriving DecidableEq

/-- Configuration external to the session: the staging buffer location
and size (`flash_buffer_addr`, `flash_buffer_size`), the platform
constant `FLASH_BASE_ADDR`, the value of the `IN_FLASH(flash_buffer_addr)`
predicate, an abstract success predicate for `flash_write_block`, and
the `DRYRUN` build-time option. -/
structure FlashCfg where
  flash_buffer_addr : Nat
  flash_buffer_size : Nat
  flash_base_addr : Nat
  in_flash : Bool
  flash_write_ok : Nat → List Nat → Bool
  dryrun : Bool

/-- `HexTransfer::TransferInitMsg` (wire fields plus the checksum the
receiver calculates during unpacking). -/
structure TransferInitMsg where
  msg_type : Nat
  line_count : Nat
  file_checksum : Nat
  init_msg_checksum : Nat
  calculated_msg_checksum : Nat
deriving DecidableEq

/-- `HexTransfer::TransferSegmentMsg`. -/
structure TransferSegmentMsg where
  msg_type : Nat
  line_num : Nat
  segment_num : Nat
  total_segments : Nat
  hex_data : List Nat
deriving DecidableEq

/-- `HexTransfer::ParsedHexLine`.  `data` holds the `byte_count` parsed
data bytes (the C array slots beyond `byte_count` are never read after a
valid parse; unparsed fields after a failed parse are indeterminate in C
and default to 0 here, guarded by `valid`). -/
structure ParsedHexLine where
  byte_count : Nat := 0
  address : Nat := 0
  record_type : Nat := 0
  data : List Nat := []
  checksum : Nat := 0
  valid : Bool := true
deriving DecidableEq

/-- Result of a record processor: the C `bool` return value, the state
after the call, and the log of staging writes (address, bytes). -/
structure ProcOut where
  ok : Bool
  st : HTState
  writes : List (Nat × List Nat)
deriving DecidableEq

/-- Result of `handle_received_hex_line`. -/
structure LineOut where
  res : ResponseCode
  st : HTState
  writes : List (Nat × List Nat)
deriving DecidableEq

/-- Result of `update`: `none` means `update` returned before reaching
`send_response`, `some r` means `send_response(r)` was invoked. -/
structure TickOut where
  res : Option ResponseCode
  st : HTState
  writes : List (Nat × List Nat)
deriving DecidableEq

/-- Reconstruction of the 64-bit little-endian word from the 8 frame
bytes (`packed |= (uint64_t)buf[i] << (8 * i)`). -/
def packedOf (buf : List Nat) : Nat :=
  (List.range 8).foldl (fun acc i => acc + buf.getD i 0 % 256 * 2 ^ (8 * i)) 0

/-- `HexTransfer::unpack_transfer_init_msg`.  The field extraction
follows the source bit masks; `ck` abstracts the undefined-behaviour
`CRC32.crc32((const uint8_t*)&m, 48)` call, truncated to the `uint16_t`
field it is assigned to. -/
def unpack_transfer_init_msg (ck : Nat → Nat) (buf : List Nat) : TransferInitMsg :=
  let packed := packedOf buf
  { msg_type := packed % 2
    line_count := (packed >>> 1) % 32768
    file_checksum := (packed >>> 16) % 4294967296
    init_msg_checksum := (packed >>> 48) % 65536
    calculated_msg_checksum := ck packed % 65536 }

/-- `HexTransfer::unpack_transfer_segment_msg`. -/
def unpack_transfer_segment_msg (buf : List Nat) : TransferSegmentMsg :=
  let packed := packedOf buf
  { msg_type := packed % 2
    line_num := (packed >>> 1) % 32768
    segment_num := (packed >>> 16) % 16
    total_segments := (packed >>> 20) % 16
    hex_data := (List.range MAX_HEX_CHUNK_SIZE).map (fun i => (packed >>> (24 + 8 * i)) % 256) }

/-- `HexTransfer::reset_cur_hex_line_buff`: segment count back to -1,
the received array deleted, the buffer memset to PAD. -/
def reset_cur_hex_line_buff (st : HTState) : HTState :=
  { st with
    hex_line_segment_count := -1
    hex_line_segments_received := []
    hex_line_buf := List.replicate MAX_HEX_LINE_SIZE PAD }

/-- `HexTransfer::clear_transfer_state`.  Note it does not touch
`last_successful_can_msg_ts`, and `computed_file_checksum` is seeded
with `CRC32.crc32("", 0)`. -/
def clear_transfer_state (st : HTState) : HTState :=
  reset_cur_hex_line_buff
    { st with
      base_address := 0
      start_address := 0
      min_address := 0xFFFFFFFF
      max_address := 0
      eof_received := false
      total_lines := 0
      received_file_checksum := 0
      hex_line_num := 0
      new_transfer_init_msg_received := false
      transfer_init_msg_error := false
      transfer_in_progress := false
      file_transfer_complete := false
      computed_file_checksum := crc32_bytes [] }

/-- `HexTransfer::abort_transfer`. -/
def abort_transfer (st : HTState) : HTState := clear_transfer_state st

/-- The state of the namespace globals after `HexTransfer::init()`
(zero-initialized globals, then `clear_transfer_state`). -/
def initial_state : HTState :=
  clear_transfer_state
    { base_address := 0, start_address := 0, min_address := 0, max_address := 0
      eof_received := false, total_lines := 0, received_file_checksum := 0
      hex_line_num := 0, hex_line_segment_count := 0, hex_line_segments_received := []
      hex_line_buf := List.replicate MAX_HEX_LINE_SIZE 0
      new_transfer_init_msg_received := false, transfer_init_msg_error := false
      transfer_in_progress := false, file_transfer_complete := false
      computed_file_checksum := 0, last_successful_can_msg_ts := 0 }

/-- `HexTransfer::process_transfer_init_msg`. -/
def process_transfer_init_msg (m : TransferInitMsg) (st : HTState) : Bool × HTState :=
  if m.msg_type ≠ 0 then (false, st)
  else
    let st1 := { st with new_transfer_init_msg_received := true }
    if m.init_msg_checksum ≠ m.calculated_msg_checksum then
      (false, { st1 with transfer_init_msg_error := true })
    else
      let st2 := abort_transfer { st1 with transfer_init_msg_error := false }
      (true, { st2 with
                transfer_in_progress := true
                received_file_checksum := m.file_checksum
                total_lines := m.line_count })

/-- The copy loop of `process_transfer_segment_msg`:
`hex_line_buf[msg.segment_num * MAX_HEX_CHUNK_SIZE + i] = msg.hex_data[i]`
for `i` in `0..4`. -/
def writeSegment (buf : List Nat) (seg : Nat) (data : List Nat) : List Nat :=
  (List.range MAX_HEX_CHUNK_SIZE).foldl
    (fun b i => b.set (seg * MAX_HEX_CHUNK_SIZE + i) (data.getD i 0)) buf

/-- The tail of `process_transfer_segment_msg` after the segment count
has been established: the `segment_num >= hex_line_segment_count` check,
the 5-byte copy, and marking the segment received. -/
def seg_copy_step (m : TransferSegmentMsg) (st : HTState) : Bool × HTState :=
  if (m.segment_num : Int) ≥ st.hex_line_segment_count then (false, st)
  else
    (true, { st with
              hex_line_buf := writeSegment st.hex_line_buf m.segment_num m.hex_data
              hex_line_segments_received := st.hex_line_segments_received.set m.segment_num true })

/-- `HexTransfer::process_transfer_segment_msg`. -/
def process_transfer_segment_msg (m : TransferSegmentMsg) (st : HTState) : Bool × HTState :=
  if m.line_num ≠ st.hex_line_num then (false, st)
  else if st.hex_line_segment_count = -1 then
    seg_copy_step m
      { st with
        hex_line_segment_count := (m.total_segments : Int)
        hex_line_segments_received := List.replicate m.total_segments false }
  else if (m.total_segments : Int) ≠ st.hex_line_segment_count then (false, st)
  else seg_copy_step m st

/-- `HexTransfer::are_all_segments_received`: the loop runs for
`0 ≤ i < hex_line_segment_count`, hence zero iterations when the count
is negative. -/
def are_all_segments_received (st : HTState) : Bool :=
  (List.range st.hex_line_segment_count.toNat).all
    (fun i => st.hex_line_segments_received.getD i false)

/-- `millis() - last_successful_can_msg_ts` in `uint32_t` arithmetic. -/
def elapsed_ms (now ts : Nat) : Nat := (u32 now + 4294967296 - u32 ts) % 4294967296

/-- `HexTransfer::has_segment_timed_out`. -/
def has_segment_timed_out (now : Nat) (st : HTState) : Bool :=
  elapsed_ms now st.last_successful_can_msg_ts > HEX_LINE_TIMEOUT_LEN

/-- `HexTransfer::has_transfer_timed_out`. -/
def has_transfer_timed_out (now : Nat) (st : HTState) : Bool :=
  elapsed_ms now st.last_successful_can_msg_ts > INACTIVITY_TIMEOUT_LEN

/-- `HexTransfer::handle_can_msg` (`now` is the value `millis()` would
return for the trailing timestamp update). -/
def handle_can_msg (ck : Nat → Nat) (now : Nat) (buf : List Nat) (st : HTState) : HTState :=
  if buf.getD 0 0 % 2 = 0 then
    let m := unpack_transfer_init_msg ck buf
    let r := process_transfer_init_msg m st
    if r.1 then { r.2 with last_successful_can_msg_ts := u32 now } else r.2
  else if st.transfer_in_progress then
    let m := unpack_transfer_segment_msg buf
    let r := process_transfer_segment_msg m st
    if r.1 then { r.2 with last_successful_can_msg_ts := u32 now } else r.2
  else { st with last_successful_can_msg_ts := u32 now }

/-- Value of one ASCII hex digit, `none` for any other byte. -/
def hexDigitVal (c : Nat) : Option Nat :=
  if 48 ≤ c ∧ c ≤ 57 then some (c - 48)
  else if 65 ≤ c ∧ c ≤ 70 then some (c - 55)
  else if 97 ≤ c ∧ c ≤ 102 then some (c - 87)
  else none

/-- Whitespace bytes skipped by a `scanf` `%x` conversion. -/
def isSpaceByte (c : Nat) : Bool :=
  c = 32 || c = 9 || c = 10 || c = 11 || c = 12 || c = 13

/-- Maximal-munch scan of up to `width` hex digits from the front of
`cs`, accumulating into `acc`; `found` records whether at least one
digit has been consumed (a `%x` conversion fails with zero digits). -/
def scanHexDigits (cs : List Nat) (width acc : Nat) (found : Bool) : Option Nat :=
  match width, cs with
  | 0, _ => if found then some acc else none
  | _, [] => if found then some acc else none
  | w + 1, c :: rest =>
    match hexDigitVal c with
    | some d => scanHexDigits rest w (acc * 16 + d) true
    | none => if found then some acc else none

/-- Model of `sscanf(buf + pos, "%<width>x", &out)` on the line buffer:
skip leading whitespace, then read at least one and at most `width` hex
digits.  (The `0x` prefix and sign handling of `strtoul` are not
modelled; they cannot occur in the guarded uses below.) -/
def sscanfHex (buf : List Nat) (pos width : Nat) : Option Nat :=
  scanHexDigits ((buf.drop pos).dropWhile isSpaceByte) width 0 false

/-- The data-byte parse loop of `parse_and_validate_hex_line`: `count`
bytes of two hex digits each, the read pointer advancing by 2 per byte. -/
def scanDataBytes (buf : List Nat) (pos : Nat) : Nat → Option (List Nat)
  | 0 => some []
  | n + 1 =>
    match sscanfHex buf pos 2 with
    | none => none
    | some b =>
      match scanDataBytes buf (pos + 2) n with
      | none => none
      | some t => some (b :: t)

/-- Length of the line: index of the first PAD byte (`while
(lineLen < MAX_HEX_LINE_SIZE && buf[lineLen] != PAD) lineLen++`). -/
def lineLenOf (buf : List Nat) : Nat :=
  ((buf.take MAX_HEX_LINE_SIZE).takeWhile (fun b => b ≠ PAD)).length

/-- `HexTransfer::parse_and_validate_hex_line`, following the source's
check order exactly.  The local running `checksum` accumulator of the
source is computed but never compared to anything, so it is omitted. -/
def parse_and_validate_hex_line (buf : List Nat) : ParsedHexLine :=
  let lineLen := lineLenOf buf
  if lineLen < 11 then { valid := false }
  else if buf.getD 0 0 ≠ 58 then { valid := false }
  else
    match sscanfHex buf 1 2 with
    | none => { valid := false }
    | some bc =>
      if bc > 16 then { valid := false }
      else if lineLen ≠ 11 + bc * 2 then { valid := false }
      else
        match sscanfHex buf 3 4 with
        | none => { valid := false }
        | some addr =>
          match sscanfHex buf 7 2 with
          | none => { valid := false }
          | some rt =>
            if rt > 5 then { valid := false }
            else
              match scanDataBytes buf 9 bc with
              | none => { valid := false }
              | some ds =>
                match sscanfHex buf (9 + 2 * bc) 2 with
                | none => { valid := false }
                | some cksum =>
                  { byte_count := bc, address := addr, record_type := rt
                    data := ds, checksum := cksum, valid := true }

/-- `base_address + hex_line.address + hex_line.byte_count` in
`uint32_t` arithmetic: the candidate new `max_address` of a data
record. -/
def data_end_addr (st : HTState) (l : ParsedHexLine) : Nat :=
  u32 (st.base_address + l.address + l.byte_count)

/-- `base_address + hex_line.address`: the candidate new `min_address`
of a data record. -/
def data_start_addr (st : HTState) (l : ParsedHexLine) : Nat :=
  u32 (st.base_address + l.address)

/-- The staging bound `FLASH_BASE_ADDR + flash_buffer_size` in
`uint32_t` arithmetic. -/
def staging_bound (cfg : FlashCfg) : Nat :=
  u32 (cfg.flash_base_addr + cfg.flash_buffer_size)

/-- The destination address
`flash_buffer_addr + base_address + hex_line.address - FLASH_BASE_ADDR`
in `uint32_t` arithmetic. -/
def staging_dst (cfg : FlashCfg) (st : HTState) (l : ParsedHexLine) : Nat :=
  u32 (cfg.flash_buffer_addr + st.base_address + l.address
        + 4294967296 - u32 cfg.flash_base_addr)

/-- `HexTransfer::process_hex_data_record`: update `max_address` then
`min_address`, reject if the new `max_address` exceeds the staging
bound, then (unless `DRYRUN`) write the data bytes, via the flash
driver when the buffer lies in flash and by `memcpy` otherwise. -/
def process_hex_data_record (cfg : FlashCfg) (st : HTState) (l : ParsedHexLine) : ProcOut :=
  if l.record_type ≠ 0 then ⟨false, st, []⟩
  else
    let st1 := if data_end_addr st l > st.max_address
                 then { st with max_address := data_end_addr st l } else st
    let st2 := if data_start_addr st l < st1.min_address
                 then { st1 with min_address := data_start_addr st l } else st1
    if st2.max_address > staging_bound cfg then ⟨false, st2, []⟩
    else if cfg.dryrun then ⟨true, st2, []⟩
    else
      let bytes := l.data.take l.byte_count
      if cfg.in_flash then
        if cfg.flash_write_ok (staging_dst cfg st l) bytes then
          ⟨true, st2, [(staging_dst cfg st l, bytes)]⟩
        else ⟨false, st2, []⟩
      else ⟨true, st2, [(staging_dst cfg st l, bytes)]⟩

/-- `HexTransfer::process_hex_eof_record`: accepted exactly when
`hex_line_num == total_lines - 1`, where `total_lines - 1` is `size_t`
(32-bit) arithmetic and so wraps to 2^32 - 1 when `total_lines = 0`. -/
def process_hex_eof_record (st : HTState) (l : ParsedHexLine) : ProcOut :=
  if l.record_type ≠ 1 then ⟨false, st, []⟩
  else if st.hex_line_num ≠ (u32 st.total_lines + 4294967296 - 1) % 4294967296 then
    ⟨false, st, []⟩
  else ⟨true, { st with eof_received := true }, []⟩

/-- `HexTransfer::process_hex_extended_segment_address_record`:
`base_address = ((data[0] << 8) | data[1]) << 4`. -/
def process_hex_extended_segment_address_record (st : HTState) (l : ParsedHexLine) : ProcOut :=
  if l.record_type ≠ 2 then ⟨false, st, []⟩
  else ⟨true, { st with base_address := u32 ((l.data.getD 0 0 <<< 8 ||| l.data.getD 1 0) <<< 4) }, []⟩

/-- `HexTransfer::process_hex_start_segment_address_record`: accepted,
no effect. -/
def process_hex_start_segment_address_record (st : HTState) (l : ParsedHexLine) : ProcOut :=
  if l.record_type ≠ 3 then ⟨false, st, []⟩
  else ⟨true, st, []⟩

/-- `HexTransfer::process_hex_extended_linear_address_record`:
`base_address = ((data[0] << 8) | data[1]) << 16`. -/
def process_hex_extended_linear_address_record (st : HTState) (l : ParsedHexLine) : ProcOut :=
  if l.record_type ≠ 4 then ⟨false, st, []⟩
  else ⟨true, { st with base_address := u32 ((l.data.getD 0 0 <<< 8 ||| l.data.getD 1 0) <<< 16) }, []⟩

/-- `HexTransfer::process_hex_start_linear_address_record`: accepted,
no effect. -/
def process_hex_start_linear_address_record (st : HTState) (l : ParsedHexLine) : ProcOut :=
  if l.record_type ≠ 5 then ⟨false, st, []⟩
  else ⟨true, st, []⟩

/-- `HexTransfer::process_hex_line`: dispatch on the record type. -/
def process_hex_line (cfg : FlashCfg) (st : HTState) (l : ParsedHexLine) : ProcOut :=
  match l.record_type with
  | 0 => process_hex_data_record cfg st l
  | 1 => process_hex_eof_record st l
  | 2 => process_hex_extended_segment_address_record st l
  | 3 => process_hex_start_segment_address_record st l
  | 4 => process_hex_extended_linear_address_record st l
  | 5 => process_hex_start_linear_address_record st l
  | _ => ⟨false, st, []⟩

/-- `HexTransfer::add_hex_line_to_checksum`: fold the line bytes up to
the first PAD into the running file CRC (`CRC32.crc32_upd`). -/
def add_hex_line_to_checksum (st : HTState) : HTState :=
  { st with
    computed_file_checksum :=
      crc32_upd st.computed_file_checksum
        ((st.hex_line_buf.take MAX_HEX_LINE_SIZE).takeWhile (fun b => b ≠ PAD)) }

/-- `HexTransfer::is_file_checksum_valid`. -/
def is_file_checksum_valid (st : HTState) : Bool :=
  st.computed_file_checksum = st.received_file_checksum

/-- `HexTransfer::handle_received_hex_line`: parse the completed line,
process the record, and only on full success fold the line into the file
checksum and increment `hex_line_num`; the buffer is reset and
`SEND_LINE` returned in every case. -/
def handle_received_hex_line (cfg : FlashCfg) (st : HTState) : LineOut :=
  let line := parse_and_validate_hex_line st.hex_line_buf
  if ¬line.valid then ⟨ResponseCode.SEND_LINE, reset_cur_hex_line_buff st, []⟩
  else
    let p := process_hex_line cfg st line
    if ¬p.ok then ⟨ResponseCode.SEND_LINE, reset_cur_hex_line_buff p.st, p.writes⟩
    else
      let st2 := add_hex_line_to_checksum p.st
      let st3 := { st2 with hex_line_num := u32 (st2.hex_line_num + 1) }
      ⟨ResponseCode.SEND_LINE, reset_cur_hex_line_buff st3, p.writes⟩

/-- `HexTransfer::update`, with `now` the value of `millis()`.  The
result records the `ResponseCode` handed to `send_response` (`none` for
the early return when no transfer is in progress). -/
def update (cfg : FlashCfg) (now : Nat) (st : HTState) : TickOut :=
  if ¬st.transfer_in_progress then ⟨none, st, []⟩
  else if has_transfer_timed_out now st then
    ⟨some ResponseCode.ERROR, abort_transfer st, []⟩
  else if has_segment_timed_out now st then ⟨some ResponseCode.SEND_LINE, st, []⟩
  else if st.new_transfer_init_msg_received then
    ⟨some (if st.transfer_init_msg_error then ResponseCode.ERROR else ResponseCode.SEND_LINE), st, []⟩
  else if are_all_segments_received st then
    let r := handle_received_hex_line cfg st
    ⟨some r.res, r.st, r.writes⟩
  else if st.eof_received then
    if ¬is_file_checksum_valid st then ⟨some ResponseCode.ERROR, abort_transfer st, []⟩
    else ⟨some ResponseCode.TRANSFER_COMPLETE,
          { st with transfer_in_progress := false, file_transfer_complete := true }, []⟩
  else ⟨some ResponseCode.NONE, st, []⟩

/-- An externally visible event: a CAN frame delivered to
`handle_can_msg` or a periodic `update()` tick, each tagged with the
`millis()` value at which it runs. -/
inductive TransferEvent where
  | frame (now : Nat) (buf : List Nat)
  | tick (now : Nat)

/-- Run a sequence of events from a state, collecting every
`ResponseCode` handed to `send_response` by the ticks. -/
def runEvents (ck : Nat → Nat) (cfg : FlashCfg) (evs : List TransferEvent)
    (st : HTState) : HTState × List ResponseCode :=
  match evs with
  | [] => (st, [])
  | TransferEvent.frame now buf :: rest =>
    runEvents ck cfg rest (handle_can_msg ck now buf st)
  | TransferEvent.tick now :: rest =>
    let t := update cfg now st
    let r := runEvents ck cfg rest t.st
    (r.1, (t.res.map (fun x => [x])).getD [] ++ r.2)

/-- A segment message for line `line` carrying segment `seg` of `total`
with payload `data` (as produced by `unpack_transfer_segment_msg` for a
well-formed frame). -/
def mkSegmentMsg (line total seg : Nat) (data : List Nat) : TransferSegmentMsg :=
  { msg_type := 1, line_num := line, segment_num := seg
    total_segments := total, hex_data := data }

/-- State after the first-segment allocation branch of
`process_transfer_segment_msg`: the count learnt from the message and a
freshly allocated all-false received array. -/
def seg_alloc (t : Nat) (st : HTState) : HTState :=
  { st with
    hex_line_segment_count := (t : Int)
    hex_line_segments_received := List.replicate t false }

/-- Effect of one accepted segment: copy its five bytes into the line
buffer and mark it received. -/
def seg_write (i : Nat) (data : List Nat) (st : HTState) : HTState :=
  { st with
    hex_line_buf := writeSegment st.hex_line_buf i data
    hex_line_segments_received := st.hex_line_segments_received.set i true }

/-- Deliver, through `process_transfer_segment_msg`, one segment message
per element of `l`, all for line `line` with the same `total` and with
the payload of segment `i` always `bytes i`. -/
def deliverSegments (line total : Nat) (bytes : Nat → List Nat) (l : List Nat)
    (st : HTState) : HTState :=
  l.foldl (fun s i => (process_transfer_segment_msg (mkSegmentMsg line total i (bytes i)) s).2) st

/-- The 8 little-endian bytes of a 64-bit word (inverse of `packedOf`
on the value domain). -/
def bytesOfWord (packed : Nat) : List Nat :=
  (List.range 8).map (fun i => (packed >>> (8 * i)) % 256)

/-- Wire frame of an InitMsg with the given fields (msg_type bit 0 is
0). -/
def init_frame (line_count file_ck init_ck : Nat) : List Nat :=
  bytesOfWord (line_count * 2 + file_ck * 65536 + init_ck * 281474976710656)

/-- Wire frame of a SegmentMsg with the given fields (msg_type bit 0 is
1). -/
def segment_frame (line seg total : Nat) (data : List Nat) : List Nat :=
  bytesOfWord (1 + line * 2 + seg * 65536 + total * 1048576 +
    (List.range MAX_HEX_CHUNK_SIZE).foldl
      (fun acc i => acc + data.getD i PAD % 256 * 2 ^ (24 + 8 * i)) 0)

/-- A receiver-side checksum oracle for concrete runs: the abstract
stand-in for the undefined-behaviour struct CRC, fixed to 0 so that an
`init_msg_checksum` field of 0 passes the comparison and any nonzero
field fails it. -/
def zero_ck : Nat → Nat := fun _ => 0

/-- A concrete configuration for the closed runs: a 4 KiB staging
buffer at address 0 outside physical flash, flash writes always
succeeding, DRYRUN enabled as in the shipped header. -/
def test_cfg : FlashCfg :=
  { flash_buffer_addr := 0, flash_buffer_size := 4096, flash_base_addr := 0
    in_flash := false, flash_write_ok := fun _ _ => true, dryrun := true }

/-- The ASCII bytes of the Intel HEX EOF record `:00000001FF`. -/
def eof_line_bytes : List Nat := [58, 48, 48, 48, 48, 48, 48, 48, 49, 70, 70]

/-- A complete one-line session exactly matching the scenario of claim
C1: a valid InitMsg declaring 1 line and the true file CRC, then the
three segments of the EOF line `:00000001FF` in order, with `update()`
ticks interleaved and every event well inside both timeouts. -/
def eof_session : List TransferEvent :=
  [TransferEvent.frame 0 (init_frame 1 (crc32_bytes eof_line_bytes) 0),
   TransferEvent.tick 1,
   TransferEvent.frame 2 (segment_frame 0 0 3 [58, 48, 48, 48, 48]),
   TransferEvent.frame 3 (segment_frame 0 1 3 [48, 48, 48, 49, 70]),
   TransferEvent.frame 4 (segment_frame 0 2 3 [70, PAD, PAD, PAD, PAD]),
   TransferEvent.tick 5,
   TransferEvent.tick 6,
   TransferEvent.tick 7]

/-- The state and response trace produced by `eof_session`. -/
def eof_session_run : HTState × List ResponseCode :=
  runEvents zero_ck test_cfg eof_session initial_state

/-- An InitMsg frame whose `init_msg_checksum` field (1) differs from
the `zero_ck` receiver-side value (0): a corrupted-init frame. -/
def bad_init_frame : List Nat := init_frame 1 0 1

/-- An InitMsg frame whose `init_msg_checksum` field (0) equals the
`zero_ck` receiver-side value: a valid init frame declaring one line. -/
def good_init_frame : List Nat := init_frame 1 0 0

/-- The state left by a valid InitMsg declaring `lines` lines with file
checksum `fck`, processed at time `ts`: `abort_transfer` has cleared
everything (including `new_transfer_init_msg_received`), then
`in_progress`, `total_lines` and `received_file_checksum` were set and
the activity timestamp updated. -/
def post_init_state (lines fck ts : Nat) : HTState :=
  { base_address := 0, start_address := 0, min_address := 4294967295, max_address := 0
    eof_received := false, total_lines := lines, received_file_checksum := fck
    hex_line_num := 0, hex_line_segment_count := -1, hex_line_segments_received := []
    hex_line_buf := List.replicate MAX_HEX_LINE_SIZE PAD
    new_transfer_init_msg_received := false, transfer_init_msg_error := false
    transfer_in_progress := true, file_transfer_complete := false
    computed_file_checksum := crc32_bytes [], last_successful_can_msg_ts := ts }

/-! ### Helper lemmas -/

/-- The low bit of the packed word is the low bit of byte 0. -/
theorem packedOf_mod_two (buf : List Nat) : packedOf buf % 2 = buf.getD 0 0 % 2 := by
  simp [packedOf, List.range_succ]
  omega

/-- The all-PAD buffer left by `reset_cur_hex_line_buff` fails parsing
(its line length is 0). -/
theorem parse_pad_invalid :
    (parse_and_validate_hex_line (List.replicate MAX_HEX_LINE_SIZE PAD)).valid = false := by
  decide

/-- No record processor ever touches `hex_line_num` or
`computed_file_checksum`. -/
theorem process_hex_line_preserves_line_and_crc (cfg : FlashCfg) (st : HTState)
    (l : ParsedHexLine) :
    (process_hex_line cfg st l).st.hex_line_num = st.hex_line_num
    ∧ (process_hex_line cfg st l).st.computed_file_checksum = st.computed_file_checksum := by
  unfold process_hex_line process_hex_data_record process_hex_eof_record
    process_hex_extended_segment_address_record process_hex_start_segment_address_record
    process_hex_extended_linear_address_record process_hex_start_linear_address_record
  constructor <;> (split <;> (try dsimp only) <;> (repeat' split) <;> rfl)

/-- The `max_address` / `min_address` updates of a data record happen
before the staging-bound check and are kept in every outcome. -/
theorem data_record_minmax (cfg : FlashCfg) (st : HTState) (l : ParsedHexLine)
    (h : l.record_type = 0) :
    (process_hex_data_record cfg st l).st.max_address
      = (if data_end_addr st l > st.max_address then data_end_addr st l else st.max_address)
    ∧ (process_hex_data_record cfg st l).st.min_address
      = (if data_start_addr st l < st.min_address then data_start_addr st l else st.min_address) := by
  unfold process_hex_data_record
  simp only [h]
  constructor <;> (try dsimp only) <;> (repeat' split) <;> simp_all

/-- A frame whose byte 0 is even is processed as an InitMsg; if its
checksum field matches the receiver-side value, the session restarts in
the `post_init_state`. -/
theorem handle_valid_init (ck : Nat → Nat) (now : Nat) (buf : List Nat) (st : HTState)
    (heven : buf.getD 0 0 % 2 = 0)
    (hgood : (unpack_transfer_init_msg ck buf).init_msg_checksum
               = (unpack_transfer_init_msg ck buf).calculated_msg_checksum) :
    handle_can_msg ck now buf st
      = post_init_state (unpack_transfer_init_msg ck buf).line_count
          (unpack_transfer_init_msg ck buf).file_checksum (u32 now) := by
  have hm : (unpack_transfer_init_msg ck buf).msg_type = 0 := by
    have h : (unpack_transfer_init_msg ck buf).msg_type = packedOf buf % 2 := rfl
    rw [h, packedOf_mod_two, heven]
  have heven2 : buf[0]?.getD 0 % 2 = 0 := by simpa using heven
  simp [handle_can_msg, process_transfer_init_msg, heven2, hm, hgood, abort_transfer,
    clear_transfer_state, reset_cur_hex_line_buff, post_init_state]

/-- A frame whose byte 0 is even but whose checksum field mismatches
only sets the two init flags: the early `return false` skips even the
timestamp update. -/
theorem handle_bad_init (ck : Nat → Nat) (now : Nat) (buf : List Nat) (st : HTState)
    (heven : buf.getD 0 0 % 2 = 0)
    (hbad : (unpack_transfer_init_msg ck buf).init_msg_checksum
              ≠ (unpack_transfer_init_msg ck buf).calculated_msg_checksum) :
    handle_can_msg ck now buf st
      = { st with new_transfer_init_msg_received := true, transfer_init_msg_error := true } := by
  have hm : (unpack_transfer_init_msg ck buf).msg_type = 0 := by
    have h : (unpack_transfer_init_msg ck buf).msg_type = packedOf buf % 2 := rfl
    rw [h, packedOf_mod_two, heven]
  have heven2 : buf[0]?.getD 0 % 2 = 0 := by simpa using heven
  simp [handle_can_msg, process_transfer_init_msg, heven2, hm, hbad]

/-- Any write logged by `process_hex_data_record` happens under the
staging bound. -/
theorem data_record_writes_bounded (cfg : FlashCfg) (st : HTState) (l : ParsedHexLine) :
    ∀ w ∈ (process_hex_data_record cfg st l).writes,
      l.record_type = 0 ∧ data_end_addr st l ≤ staging_bound cfg := by
  intro w hw
  unfold process_hex_data_record at hw
  by_cases h0 : l.record_type = 0
  · rw [if_neg (by simp [h0])] at hw
    (try dsimp only at hw)
    refine ⟨h0, ?_⟩
    (repeat' split at hw) <;> simp_all <;> omega
  · rw [if_pos h0] at hw
    simp at hw

/-! ### Claim theorems -/

set_option maxRecDepth 10000 in
/-- C1: the claim asserts that a session opened by a valid InitMsg and
fed, in order and without timeouts, every segment of every declared line
(the last being an EOF record) with a matching file CRC eventually emits
exactly one TRANSFER_COMPLETE, no ERRORs, and ends with
`complete = true`, `in_progress = false`.  The code cannot do this: this
concrete session delivers a one-line file consisting of the EOF record
`:00000001FF` with the correct CRC, yet every `update()` answers
SEND_LINE, the final state still has `transfer_in_progress = true` and
`file_transfer_complete = false` even though `eof_received = true` and
the computed CRC equals the declared one, and that final state is a
fixed point of `update` (which keeps answering SEND_LINE), so
TRANSFER_COMPLETE is never emitted: after the EOF line is processed the
buffer reset makes `hex_line_segment_count = -1`, hence
`are_all_segments_received()` is vacuously true and the
`eof_received` branch of `update()` is unreachable. -/
theorem claim_C1_transfer_complete_unreachable :
    eof_session_run.2 = [ResponseCode.SEND_LINE, ResponseCode.SEND_LINE,
      ResponseCode.SEND_LINE, ResponseCode.SEND_LINE]
    ∧ eof_session_run.1.eof_received = true
    ∧ eof_session_run.1.computed_file_checksum = eof_session_run.1.received_file_checksum
    ∧ eof_session_run.1.transfer_in_progress = true
    ∧ eof_session_run.1.file_transfer_complete = false
    ∧ update test_cfg 8 eof_session_run.1
        = ⟨some ResponseCode.SEND_LINE, eof_session_run.1, []⟩ := by
  decide

/-- C5: if the completed line's text fails parsing, or the parsed
record fails processing, then `hex_line_num` (the current line index)
and `computed_file_checksum` are unchanged by the call; they advance
only when parse and process both succeed. -/
theorem claim_C5_no_advance_on_failure (cfg : FlashCfg) (st : HTState)
    (h : (parse_and_validate_hex_line st.hex_line_buf).valid = false
         ∨ (process_hex_line cfg st (parse_and_validate_hex_line st.hex_line_buf)).ok = false) :
    (handle_received_hex_line cfg st).st.hex_line_num = st.hex_line_num
    ∧ (handle_received_hex_line cfg st).st.computed_file_checksum
        = st.computed_file_checksum := by
  unfold handle_received_hex_line
  by_cases hv : (parse_and_validate_hex_line st.hex_line_buf).valid
  · have hp : (process_hex_line cfg st (parse_and_validate_hex_line st.hex_line_buf)).ok
        = false := by
      rcases h with h | h
      · rw [hv] at h; cases h
      · exact h
    simp only [hv, hp, not_true_eq_false, Bool.false_eq_true, if_false, not_false_eq_true,
      if_true, reset_cur_hex_line_buff]
    exact process_hex_line_preserves_line_and_crc cfg st _
  · simp only [hv, not_false_eq_true, if_true, reset_cur_hex_line_buff]
    exact ⟨rfl, rfl⟩

/-- C5 witness: on the freshly initialized state the all-PAD buffer
fails parsing and neither counter moves. -/
theorem claim_C5_witness :
    (handle_received_hex_line test_cfg initial_state).st.hex_line_num
        = initial_state.hex_line_num
    ∧ (handle_received_hex_line test_cfg initial_state).st.computed_file_checksum
        = initial_state.computed_file_checksum :=
  claim_C5_no_advance_on_failure test_cfg initial_state (Or.inl (by decide))

/-- C7: an EOF record is accepted, setting `eof_received`, exactly when
`hex_line_num = total_lines - 1`; for any other `hex_line_num` the
processor fails and the state (in particular `eof_received`) is
unchanged.  The `uint32` range hypotheses reflect the `size_t`
variables. -/
theorem claim_C7_eof_iff_last_line (st : HTState) (l : ParsedHexLine)
    (hrt : l.record_type = 1) (h1 : 1 ≤ st.total_lines) (h2 : st.total_lines < 4294967296) :
    (st.hex_line_num = st.total_lines - 1 →
       process_hex_eof_record st l = ⟨true, { st with eof_received := true }, []⟩)
    ∧ (st.hex_line_num ≠ st.total_lines - 1 →
       process_hex_eof_record st l = ⟨false, st, []⟩) := by
  constructor <;> intro h
  · have he : st.hex_line_num = (u32 st.total_lines + 4294967296 - 1) % 4294967296 := by
      unfold u32; omega
    simp [process_hex_eof_record, hrt, he]
  · have hne : ¬st.hex_line_num = (u32 st.total_lines + 4294967295) % 4294967296 := by
      unfold u32; omega
    simp [process_hex_eof_record, hrt, hne]

/-- C7 witness: with one expected line and `hex_line_num = 0` the EOF
record is accepted. -/
theorem claim_C7_witness :
    process_hex_eof_record { initial_state with total_lines := 1 } { record_type := 1 }
      = ⟨true, { { initial_state with total_lines := 1 } with eof_received := true }, []⟩ :=
  (claim_C7_eof_iff_last_line { initial_state with total_lines := 1 } { record_type := 1 }
    (by decide) (by decide) (by decide)).1 (by decide)

/-- C9: whenever `hex_line_segment_count = -1` (as after
`reset_cur_hex_line_buff`), `are_all_segments_received` is vacuously
true, so an `update()` reaching that branch treats the line as complete
and hands the buffer to `handle_received_hex_line` (which starts by
parsing it). -/
theorem claim_C9_vacuous_all_segments_received :
    (∀ st : HTState, st.hex_line_segment_count = -1 → are_all_segments_received st = true)
    ∧ (∀ st : HTState, (reset_cur_hex_line_buff st).hex_line_segment_count = -1)
    ∧ (∀ (cfg : FlashCfg) (now : Nat) (st : HTState),
        st.transfer_in_progress = true →
        has_transfer_timed_out now st = false →
        has_segment_timed_out now st = false →
        st.new_transfer_init_msg_received = false →
        st.hex_line_segment_count = -1 →
        update cfg now st
          = ⟨some (handle_received_hex_line cfg st).res, (handle_received_hex_line cfg st).st,
             (handle_received_hex_line cfg st).writes⟩) := by
  have hvac : ∀ st : HTState, st.hex_line_segment_count = -1 →
      are_all_segments_received st = true := by
    intro st h
    simp [are_all_segments_received, h]
  refine ⟨hvac, fun st => rfl, ?_⟩
  intro cfg now st hp hT hS hn hc
  simp [update, hp, hT, hS, hn, hvac st hc]

/-- C9 witness: the vacuous check and the update branch on a concrete
in-progress state with an unallocated segment array. -/
theorem claim_C9_witness :
    update test_cfg 0 { initial_state with transfer_in_progress := true }
      = ⟨some (handle_received_hex_line test_cfg
                { initial_state with transfer_in_progress := true }).res,
         (handle_received_hex_line test_cfg
                { initial_state with transfer_in_progress := true }).st,
         (handle_received_hex_line test_cfg
                { initial_state with transfer_in_progress := true }).writes⟩ :=
  claim_C9_vacuous_all_segments_received.2.2 test_cfg 0
    { initial_state with transfer_in_progress := true }
    (by decide) (by decide) (by decide) (by decide) (by decide)

/-- C10: a data record updates `min_address` and `max_address` before
the staging-bound check and before any write, and they keep those
enlarged values in every outcome, including rejection. -/
theorem claim_C10_minmax_updated_even_on_failure (cfg : FlashCfg) (st : HTState)
    (l : ParsedHexLine) (h : l.record_type = 0) :
    (process_hex_data_record cfg st l).st.max_address
      = (if data_end_addr st l > st.max_address then data_end_addr st l else st.max_address)
    ∧ (process_hex_data_record cfg st l).st.min_address
      = (if data_start_addr st l < st.min_address then data_start_addr st l
         else st.min_address) := by
  exact data_record_minmax cfg st l h

/-- C10 witness: a record whose end address exceeds the staging bound is
rejected yet still enlarges `max_address` (and lowers `min_address`). -/
theorem claim_C10_witness :
    (process_hex_data_record test_cfg initial_state
        { byte_count := 16, address := 8000, record_type := 0, data := [] }).st.max_address
      = (if data_end_addr initial_state
              { byte_count := 16, address := 8000, record_type := 0, data := [] }
            > initial_state.max_address
         then data_end_addr initial_state
              { byte_count := 16, address := 8000, record_type := 0, data := [] }
         else initial_state.max_address)
    ∧ (process_hex_data_record test_cfg initial_state
        { byte_count := 16, address := 8000, record_type := 0, data := [] }).st.min_address
      = (if data_start_addr initial_state
              { byte_count := 16, address := 8000, record_type := 0, data := [] }
            < initial_state.min_address
         then data_start_addr initial_state
              { byte_count := 16, address := 8000, record_type := 0, data := [] }
         else initial_state.min_address) :=
  claim_C10_minmax_updated_even_on_failure test_cfg initial_state
    { byte_count := 16, address := 8000, record_type := 0, data := [] } (by decide)

/-- C3 counterexample: an InitMsg with a mismatched checksum delivered
to the idle state does change session state beyond `in_progress`
(`new_transfer_init_msg_received` becomes true), and the subsequent
`update()` emits no response at all (it returns before `send_response`
because no transfer is in progress), contradicting the claimed
ERROR{INIT_CHECKSUM} emission. -/
theorem claim_C3_counterexample :
    (handle_can_msg zero_ck 5 bad_init_frame initial_state).new_transfer_init_msg_received
        = true
    ∧ (handle_can_msg zero_ck 5 bad_init_frame initial_state).transfer_init_msg_error = true
    ∧ (update test_cfg 6 (handle_can_msg zero_ck 5 bad_init_frame initial_state)).res
        = none := by
  decide

/-- C4 counterexample: after a matching InitMsg the state has
`new_transfer_init_msg_received = false`, not true as claimed:
`process_transfer_init_msg` sets the flag before calling
`abort_transfer()`, which clears it again. -/
theorem claim_C4_counterexample :
    (handle_can_msg zero_ck 5 good_init_frame initial_state).transfer_in_progress = true
    ∧ (handle_can_msg zero_ck 5 good_init_frame initial_state).new_transfer_init_msg_received
        = false := by
  decide

/-- C3 (amended): a mismatched InitMsg delivered while no transfer is
in progress leaves `in_progress` false, but it does set
`new_transfer_init_msg_received` and `transfer_init_msg_error` (and
changes nothing else, not even the activity timestamp), and the
subsequent `update()` emits no response at all — not ERROR — because
`update` returns immediately while no transfer is in progress. -/
theorem claim_C3_amended_bad_init_silent (ck : Nat → Nat) (cfg : FlashCfg) (now now2 : Nat)
    (buf : List Nat) (st : HTState)
    (hin : st.transfer_in_progress = false)
    (heven : buf.getD 0 0 % 2 = 0)
    (hbad : (unpack_transfer_init_msg ck buf).init_msg_checksum
              ≠ (unpack_transfer_init_msg ck buf).calculated_msg_checksum) :
    handle_can_msg ck now buf st
      = { st with new_transfer_init_msg_received := true, transfer_init_msg_error := true }
    ∧ (handle_can_msg ck now buf st).transfer_in_progress = false
    ∧ update cfg now2 (handle_can_msg ck now buf st)
        = ⟨none, handle_can_msg ck now buf st, []⟩ := by
  have hstep := handle_bad_init ck now buf st heven hbad
  refine ⟨hstep, ?_, ?_⟩
  · rw [hstep]; exact hin
  · rw [hstep]; simp [update, hin]

/-- C3 witness: the amended behavior at the concrete corrupted-init
frame. -/
theorem claim_C3_witness :
    handle_can_msg zero_ck 7 bad_init_frame initial_state
      = { initial_state with
            new_transfer_init_msg_received := true, transfer_init_msg_error := true }
    ∧ (handle_can_msg zero_ck 7 bad_init_frame initial_state).transfer_in_progress = false
    ∧ update test_cfg 8 (handle_can_msg zero_ck 7 bad_init_frame initial_state)
        = ⟨none, handle_can_msg zero_ck 7 bad_init_frame initial_state, []⟩ :=
  claim_C3_amended_bad_init_silent zero_ck test_cfg 7 8 bad_init_frame initial_state
    (by decide) (by decide) (by decide)

/-- C4 (amended): after a matching InitMsg the state has
`in_progress = true` and `total_lines` / `received_file_checksum` taken
from the message, but `new_transfer_init_msg_received` is false —
`process_transfer_init_msg` raises the flag before calling
`abort_transfer()`, which clears it — so the next timely `update()`
still answers SEND_LINE (for line 0, since `hex_line_num = 0`), but via
the `are_all_segments_received` branch (the vacuous check on the reset
buffer followed by a failed parse of the empty line), not via the
init-pending branch. -/
theorem claim_C4_amended_valid_init_clears_pending (ck : Nat → Nat) (cfg : FlashCfg)
    (now now2 : Nat) (buf : List Nat) (st : HTState)
    (heven : buf.getD 0 0 % 2 = 0)
    (hgood : (unpack_transfer_init_msg ck buf).init_msg_checksum
               = (unpack_transfer_init_msg ck buf).calculated_msg_checksum)
    (hT : has_transfer_timed_out now2 (handle_can_msg ck now buf st) = false)
    (hS : has_segment_timed_out now2 (handle_can_msg ck now buf st) = false) :
    (handle_can_msg ck now buf st).transfer_in_progress = true
    ∧ (handle_can_msg ck now buf st).total_lines
        = (unpack_transfer_init_msg ck buf).line_count
    ∧ (handle_can_msg ck now buf st).received_file_checksum
        = (unpack_transfer_init_msg ck buf).file_checksum
    ∧ (handle_can_msg ck now buf st).new_transfer_init_msg_received = false
    ∧ (handle_can_msg ck now buf st).hex_line_num = 0
    ∧ update cfg now2 (handle_can_msg ck now buf st)
        = ⟨some ResponseCode.SEND_LINE, handle_can_msg ck now buf st, []⟩ := by
  have hstep := handle_valid_init ck now buf st heven hgood
  rw [hstep] at hT hS ⊢
  simp only [post_init_state] at hT hS
  refine ⟨rfl, rfl, rfl, rfl, rfl, ?_⟩
  simp [update, hT, hS, post_init_state, are_all_segments_received,
    handle_received_hex_line, parse_pad_invalid, reset_cur_hex_line_buff]

/-- C4 witness: the amended behavior at the concrete valid init
frame. -/
theorem claim_C4_witness :
    (handle_can_msg zero_ck 7 good_init_frame initial_state).transfer_in_progress = true
    ∧ (handle_can_msg zero_ck 7 good_init_frame initial_state).total_lines
        = (unpack_transfer_init_msg zero_ck good_init_frame).line_count
    ∧ (handle_can_msg zero_ck 7 good_init_frame initial_state).received_file_checksum
        = (unpack_transfer_init_msg zero_ck good_init_frame).file_checksum
    ∧ (handle_can_msg zero_ck 7 good_init_frame initial_state).new_transfer_init_msg_received
        = false
    ∧ (handle_can_msg zero_ck 7 good_init_frame initial_state).hex_line_num = 0
    ∧ update test_cfg 8 (handle_can_msg zero_ck 7 good_init_frame initial_state)
        = ⟨some ResponseCode.SEND_LINE,
           handle_can_msg zero_ck 7 good_init_frame initial_state, []⟩ :=
  claim_C4_amended_valid_init_clears_pending zero_ck test_cfg 7 8 good_init_frame
    initial_state (by decide) (by decide) (by decide) (by decide)

/-- C6: staging writes happen only while processing a `record_type = 0`
record and only when `base_address + address + byte_count` stays within
`FLASH_BASE_ADDR + flash_buffer_size`; a data record driving
`max_address` exactly to the bound is accepted (provided the write
itself does not fail), and one driving it one byte past the bound is
rejected with no write. -/
theorem claim_C6_staging_write_bound :
    (∀ (cfg : FlashCfg) (st : HTState) (l : ParsedHexLine) (w : Nat × List Nat),
        w ∈ (process_hex_line cfg st l).writes →
        l.record_type = 0 ∧ data_end_addr st l ≤ staging_bound cfg)
    ∧ (∀ (cfg : FlashCfg) (st : HTState) (l : ParsedHexLine),
        l.record_type = 0 →
        (if data_end_addr st l > st.max_address then data_end_addr st l else st.max_address)
            = staging_bound cfg →
        (cfg.dryrun = true ∨ cfg.in_flash = false
          ∨ cfg.flash_write_ok (staging_dst cfg st l) (l.data.take l.byte_count) = true) →
        (process_hex_data_record cfg st l).ok = true)
    ∧ (∀ (cfg : FlashCfg) (st : HTState) (l : ParsedHexLine),
        l.record_type = 0 →
        (if data_end_addr st l > st.max_address then data_end_addr st l else st.max_address)
            = staging_bound cfg + 1 →
        (process_hex_data_record cfg st l).ok = false
          ∧ (process_hex_data_record cfg st l).writes = []) := by
  refine ⟨?_, ?_, ?_⟩
  · intro cfg st l w hw
    unfold process_hex_line at hw
    split at hw
    · exact data_record_writes_bounded cfg st l w hw
    · unfold process_hex_eof_record at hw
      (repeat' split at hw) <;> simp_all
    · unfold process_hex_extended_segment_address_record at hw
      (repeat' split at hw) <;> simp_all
    · unfold process_hex_start_segment_address_record at hw
      (repeat' split at hw) <;> simp_all
    · unfold process_hex_extended_linear_address_record at hw
      (repeat' split at hw) <;> simp_all
    · unfold process_hex_start_linear_address_record at hw
      (repeat' split at hw) <;> simp_all
    · simp at hw
  · intro cfg st l h0 hmax hok
    unfold process_hex_data_record
    rw [if_neg (by simp [h0])]
    (try dsimp only)
    (repeat' split) <;> simp_all
  · intro cfg st l h0 hmax
    unfold process_hex_data_record
    rw [if_neg (by simp [h0])]
    (try dsimp only)
    (repeat' split) <;> simp_all

/-- C6 witness: a logged write (dry run off, RAM buffer) respects the
bound; a record ending exactly at the bound (4096) is accepted; a record
ending at 4097 is rejected without a write. -/
theorem claim_C6_witness :
    (({ byte_count := 1, address := 0, record_type := 0, data := [171] }
            : ParsedHexLine).record_type = 0
        ∧ data_end_addr initial_state
            { byte_count := 1, address := 0, record_type := 0, data := [171] }
          ≤ staging_bound
              { flash_buffer_addr := 0, flash_buffer_size := 4096, flash_base_addr := 0
                in_flash := false, flash_write_ok := fun _ _ => true, dryrun := false })
    ∧ (process_hex_data_record test_cfg initial_state
        { byte_count := 16, address := 4080, record_type := 0, data := [] }).ok = true
    ∧ (process_hex_data_record test_cfg initial_state
        { byte_count := 16, address := 4081, record_type := 0, data := [] }).ok = false
    ∧ (process_hex_data_record test_cfg initial_state
        { byte_count := 16, address := 4081, record_type := 0, data := [] }).writes = [] :=
  ⟨claim_C6_staging_write_bound.1
      { flash_buffer_addr := 0, flash_buffer_size := 4096, flash_base_addr := 0
        in_flash := false, flash_write_ok := fun _ _ => true, dryrun := false }
      initial_state
      { byte_count := 1, address := 0, record_type := 0, data := [171] } (0, [171])
      (by decide),
   claim_C6_staging_write_bound.2.1 test_cfg initial_state
      { byte_count := 16, address := 4080, record_type := 0, data := [] }
      (by decide) (by decide) (Or.inl (by decide)),
   (claim_C6_staging_write_bound.2.2 test_cfg initial_state
      { byte_count := 16, address := 4081, record_type := 0, data := [] }
      (by decide) (by decide)).1,
   (claim_C6_staging_write_bound.2.2 test_cfg initial_state
      { byte_count := 16, address := 4081, record_type := 0, data := [] }
      (by decide) (by decide)).2⟩

/-- Folding a list of single-cell writes over a list preserves its
length. -/
theorem foldl_set_length (xs : List Nat) (buf d : List Nat) (base : Nat) :
    (xs.foldl (fun b k => b.set (base + k) (d.getD k 0)) buf).length = buf.length := by
  induction xs generalizing buf with
  | nil => rfl
  | cons a t ih => rw [List.foldl_cons, ih, List.length_set]

/-- Pointwise description of writing `d[0..w)` to `buf[base..base+w)`
(the segment copy loop, generalized). -/
theorem range_foldl_set_getElem (w : Nat) (buf d : List Nat) (base p : Nat) :
    ((List.range w).foldl (fun b k => b.set (base + k) (d.getD k 0)) buf)[p]?
      = if base ≤ p ∧ p < base + w then
          (if p < buf.length then some (d.getD (p - base) 0) else none)
        else buf[p]? := by
  induction w with
  | zero =>
    have h : ¬(base ≤ p ∧ p < base) := by omega
    simp [h]
  | succ n ih =>
    rw [List.range_succ, List.foldl_append, List.foldl_cons, List.foldl_nil]
    rw [List.getElem?_set, foldl_set_length]
    by_cases hp : base + n = p
    · subst hp
      have h1 : base ≤ base + n ∧ base + n < base + (n + 1) := by omega
      have h2 : base + n - base = n := by omega
      simp [h1, h2]
    · rw [if_neg hp, ih]
      by_cases h1 : base ≤ p ∧ p < base + n
      · have h2 : base ≤ p ∧ p < base + (n + 1) := by omega
        simp [h1, h2]
      · by_cases h3 : base ≤ p ∧ p < base + (n + 1)
        · exact absurd h3 (by omega)
        · simp [h1, h3]

/-- `writeSegment` preserves the buffer length. -/
theorem writeSegment_length (buf : List Nat) (seg : Nat) (data : List Nat) :
    (writeSegment buf seg data).length = buf.length := by
  unfold writeSegment
  rw [foldl_set_length]

/-- Pointwise description of `writeSegment`: position `p` holds byte
`p % 5` of the segment's data exactly when `p / 5` is the written
segment index. -/
theorem writeSegment_getElem (buf : List Nat) (seg : Nat) (data : List Nat) (p : Nat) :
    (writeSegment buf seg data)[p]?
      = if p / 5 = seg then (if p < buf.length then some (data.getD (p % 5) 0) else none)
        else buf[p]? := by
  unfold writeSegment
  rw [range_foldl_set_getElem]
  by_cases hc : p / 5 = seg
  · have h1 : seg * MAX_HEX_CHUNK_SIZE ≤ p
        ∧ p < seg * MAX_HEX_CHUNK_SIZE + MAX_HEX_CHUNK_SIZE := by
      unfold MAX_HEX_CHUNK_SIZE
      omega
    have h2 : p - seg * MAX_HEX_CHUNK_SIZE = p % 5 := by
      unfold MAX_HEX_CHUNK_SIZE
      omega
    simp [hc, h1, h2]
  · have h1 : ¬(seg * MAX_HEX_CHUNK_SIZE ≤ p
        ∧ p < seg * MAX_HEX_CHUNK_SIZE + MAX_HEX_CHUNK_SIZE) := by
      unfold MAX_HEX_CHUNK_SIZE
      omega
    simp [hc, h1]

/-- After folding accepted segment writes over a list of indices, bit
`j` of the received mask is set exactly when `j` occurs in the list (or
was set before). -/
theorem foldl_seg_write_received (bytes : Nat → List Nat) (l : List Nat) (st : HTState)
    (j : Nat) :
    ((l.foldl (fun s i => seg_write i (bytes i) s) st).hex_line_segments_received)[j]?
      = if j ∈ l ∧ j < st.hex_line_segments_received.length
        then some true
        else st.hex_line_segments_received[j]? := by
  induction l generalizing st with
  | nil => simp
  | cons a t ih =>
    rw [List.foldl_cons, ih]
    simp only [seg_write, List.length_set]
    rw [List.getElem?_set]
    by_cases h1 : j ∈ t ∧ j < st.hex_line_segments_received.length
    · have h2 : (j = a ∨ j ∈ t) ∧ j < st.hex_line_segments_received.length :=
        ⟨Or.inr h1.1, h1.2⟩
      simp [h1, h2]
    · by_cases h2 : a = j
      · subst h2
        by_cases h3 : a < st.hex_line_segments_received.length
        · have h4 : (a = a ∨ a ∈ t) ∧ a < st.hex_line_segments_received.length :=
            ⟨Or.inl rfl, h3⟩
          simp [h1, h3, h4]
        · have h5 : st.hex_line_segments_received[a]? = none :=
            List.getElem?_eq_none (by omega)
          have h6 : ¬((a = a ∨ a ∈ t) ∧ a < st.hex_line_segments_received.length) := by
            rintro ⟨_, hlen⟩
            exact h3 hlen
          simp [h1, h3, h5, h6]
      · have hc : ¬((j = a ∨ j ∈ t) ∧ j < st.hex_line_segments_received.length) := by
          rintro ⟨hor, hlen⟩
          rcases hor with he | hm
          · exact h2 he.symm
          · exact h1 ⟨hm, hlen⟩
        simp [h1, h2, hc]

/-- After folding accepted segment writes over a list of indices, buffer
byte `p` holds byte `p % 5` of segment `p / 5` exactly when that segment
occurs in the list; writes are by index, so arrival order and
duplication are irrelevant. -/
theorem foldl_seg_write_buf (bytes : Nat → List Nat) (l : List Nat) (st : HTState) (p : Nat) :
    ((l.foldl (fun s i => seg_write i (bytes i) s) st).hex_line_buf)[p]?
      = if p / 5 ∈ l ∧ p < st.hex_line_buf.length
        then some ((bytes (p / 5)).getD (p % 5) 0)
        else st.hex_line_buf[p]? := by
  induction l generalizing st with
  | nil => simp
  | cons a t ih =>
    rw [List.foldl_cons, ih]
    simp only [seg_write, writeSegment_length]
    rw [writeSegment_getElem]
    by_cases h1 : p / 5 ∈ t ∧ p < st.hex_line_buf.length
    · have h2 : (p / 5 = a ∨ p / 5 ∈ t) ∧ p < st.hex_line_buf.length :=
        ⟨Or.inr h1.1, h1.2⟩
      simp [h1, h2]
    · by_cases h2 : p / 5 = a
      · by_cases h3 : p < st.hex_line_buf.length
        · have h4 : (p / 5 = a ∨ p / 5 ∈ t) ∧ p < st.hex_line_buf.length :=
            ⟨Or.inl h2, h3⟩
          simp [h1, h2, h3, h4]
        · have h5 : st.hex_line_buf[p]? = none := List.getElem?_eq_none (by omega)
          have h6 : ¬((p / 5 = a ∨ p / 5 ∈ t) ∧ p < st.hex_line_buf.length) := by
            rintro ⟨_, hlen⟩
            exact h3 hlen
          simp [h1, h2, h3, h5, h6]
      · have hc : ¬((p / 5 = a ∨ p / 5 ∈ t) ∧ p < st.hex_line_buf.length) := by
          rintro ⟨hor, hlen⟩
          rcases hor with he | hm
          · exact h2 he
          · exact h1 ⟨hm, hlen⟩
        simp [h1, h2, hc]

/-- A consistent segment for the current line is accepted (returning
true) and performs the index-addressed write whenever the count is
already established, whether or not the segment was received before. -/
theorem process_segment_established (line t i : Nat) (d : List Nat) (st : HTState)
    (hline : st.hex_line_num = line) (hcnt : st.hex_line_segment_count = (t : Int))
    (hit : i < t) :
    process_transfer_segment_msg (mkSegmentMsg line t i d) st = (true, seg_write i d st) := by
  have h1 : ¬((t : Int) = -1) := by omega
  have h2 : ((i : Nat) : Int) < (t : Int) := by exact_mod_cast hit
  simp [process_transfer_segment_msg, mkSegmentMsg, seg_copy_step, seg_write,
    hline, hcnt, h1, not_le.mpr h2]

/-- The first segment of a fresh line allocates the mask and then
behaves like an established-count write. -/
theorem process_segment_fresh (line t i : Nat) (d : List Nat) (st : HTState)
    (hline : st.hex_line_num = line) (hcnt : st.hex_line_segment_count = -1)
    (hit : i < t) :
    process_transfer_segment_msg (mkSegmentMsg line t i d) st
      = (true, seg_write i d (seg_alloc t st)) := by
  have h2 : ((i : Nat) : Int) < (t : Int) := by exact_mod_cast hit
  simp [process_transfer_segment_msg, mkSegmentMsg, seg_copy_step, seg_write, seg_alloc,
    hline, hcnt, not_le.mpr h2]

/-- Delivering in-range segments to a line with an established count is
the fold of the index-addressed writes. -/
theorem deliverSegments_established (line t : Nat) (bytes : Nat → List Nat) (l : List Nat)
    (st : HTState)
    (hline : st.hex_line_num = line) (hcnt : st.hex_line_segment_count = (t : Int))
    (hb : ∀ i ∈ l, i < t) :
    deliverSegments line t bytes l st
      = l.foldl (fun s i => seg_write i (bytes i) s) st := by
  induction l generalizing st with
  | nil => rfl
  | cons a tl ih =>
    unfold deliverSegments
    rw [List.foldl_cons, List.foldl_cons,
      process_segment_established line t a (bytes a) st hline hcnt
        (hb a (List.mem_cons_self a tl))]
    exact ih (seg_write a (bytes a) st) hline hcnt
      (fun i hi => hb i (List.mem_cons_of_mem a hi))

/-- Delivering a nonempty run of in-range segments to a fresh line is
the allocation followed by the fold of index-addressed writes. -/
theorem deliverSegments_fresh (line t : Nat) (bytes : Nat → List Nat) (l : List Nat)
    (st : HTState)
    (hline : st.hex_line_num = line) (hcnt : st.hex_line_segment_count = -1)
    (hne : l ≠ []) (hb : ∀ i ∈ l, i < t) :
    deliverSegments line t bytes l st
      = l.foldl (fun s i => seg_write i (bytes i) s) (seg_alloc t st) := by
  cases l with
  | nil => exact absurd rfl hne
  | cons a tl =>
    unfold deliverSegments
    rw [List.foldl_cons, List.foldl_cons,
      process_segment_fresh line t a (bytes a) st hline hcnt
        (hb a (List.mem_cons_self a tl))]
    have h := deliverSegments_established line t bytes tl
      (seg_write a (bytes a) (seg_alloc t st)) hline rfl
      (fun i hi => hb i (List.mem_cons_of_mem a hi))
    unfold deliverSegments at h
    exact h

/-- C8: for a fresh current line, delivering segment messages that all
carry the same total `t` and consistent per-index payloads, in any order
that covers every index 0..t-1 and with arbitrary duplicates, produces
the same text buffer and the same received mask as the in-order
duplicate-free delivery `0, 1, ..., t-1`; and a repeated (or any
in-range) segment is accepted, not treated as an error, once the count
is established.  `t ≤ 9` is MAX_CHUNKS_PER_HEX_LINE, the domain within
which the C buffer indexing is defined. -/
theorem claim_C8_segment_order_independence :
    (∀ (line t : Nat) (bytes : Nat → List Nat) (l : List Nat) (st : HTState),
      st.hex_line_num = line → st.hex_line_segment_count = -1 →
      1 ≤ t → t ≤ 9 →
      (∀ i ∈ l, i < t) → (∀ j, j < t → j ∈ l) →
      (deliverSegments line t bytes l st).hex_line_buf
          = (deliverSegments line t bytes (List.range t) st).hex_line_buf
        ∧ (deliverSegments line t bytes l st).hex_line_segments_received
          = (deliverSegments line t bytes (List.range t) st).hex_line_segments_received)
    ∧ (∀ (line t i : Nat) (d : List Nat) (st : HTState),
        st.hex_line_num = line → st.hex_line_segment_count = (t : Int) → i < t →
        (process_transfer_segment_msg (mkSegmentMsg line t i d) st).1 = true) := by
  constructor
  · intro line t bytes l st hline hcnt ht1 ht9 hb hcov
    have hlne : l ≠ [] := by
      intro h
      subst h
      exact absurd (hcov 0 ht1) (List.not_mem_nil 0)
    have hrne : List.range t ≠ [] := by
      simp only [ne_eq, List.range_eq_nil]
      omega
    rw [deliverSegments_fresh line t bytes l st hline hcnt hlne hb,
        deliverSegments_fresh line t bytes (List.range t) st hline hcnt hrne
          (fun i hi => List.mem_range.mp hi)]
    constructor
    · apply List.ext_getElem?
      intro p
      rw [foldl_seg_write_buf, foldl_seg_write_buf]
      by_cases hc : p / 5 < t
      · have hl : p / 5 ∈ l := hcov _ hc
        have hr : p / 5 ∈ List.range t := List.mem_range.mpr hc
        simp [hl, hr]
      · have hl : p / 5 ∉ l := fun h => hc (hb _ h)
        have hr : p / 5 ∉ List.range t := fun h => hc (List.mem_range.mp h)
        simp [hl, hr]
    · apply List.ext_getElem?
      intro j
      rw [foldl_seg_write_received, foldl_seg_write_received]
      by_cases hc : j < t
      · have hl : j ∈ l := hcov _ hc
        have hr : j ∈ List.range t := List.mem_range.mpr hc
        simp [hl, hr]
      · have hl : j ∉ l := fun h => hc (hb _ h)
        have hr : j ∉ List.range t := fun h => hc (List.mem_range.mp h)
        simp [hl, hr]
  · intro line t i d st hline hcnt hit
    rw [process_segment_established line t i d st hline hcnt hit]

/-- C8 witness: delivering segments of line 0 in order 1, 0, 1 (with a
duplicate) equals the in-order delivery 0, 1 on buffer and mask, and a
duplicate segment is accepted. -/
theorem claim_C8_witness :
    ((deliverSegments 0 2 (fun i => List.replicate 5 i) [1, 0, 1] initial_state).hex_line_buf
        = (deliverSegments 0 2 (fun i => List.replicate 5 i) (List.range 2)
            initial_state).hex_line_buf
      ∧ (deliverSegments 0 2 (fun i => List.replicate 5 i) [1, 0, 1]
            initial_state).hex_line_segments_received
        = (deliverSegments 0 2 (fun i => List.replicate 5 i) (List.range 2)
            initial_state).hex_line_segments_received)
    ∧ (process_transfer_segment_msg (mkSegmentMsg 0 2 1 [9, 9, 9, 9, 9])
          (seg_alloc 2 initial_state)).1 = true :=
  ⟨claim_C8_segment_order_independence.1 0 2 (fun i => List.replicate 5 i) [1, 0, 1]
      initial_state rfl rfl (by decide) (by decide) (by decide) (by decide),
   claim_C8_segment_order_independence.2 0 2 1 [9, 9, 9, 9, 9] (seg_alloc 2 initial_state)
      rfl rfl (by decide)⟩

end HexTransfer
